import Mathlib

/-!
Verification development for the MyPage repository (src/main.py and
src/src/resistance_support.py).

The pipeline is: fetch OHLCV candles from Coinbase, append technical
indicator columns with pandas, send the most recent rows to a
chat-completion endpoint, and splice the returned text into a static
HTML page.

Shallow embedding conventions:
- pandas float64 cells are modelled as rationals; a NaN cell is `none`
  in an `Option` column.  Where IEEE special values matter (the RSI
  division by an average loss of zero) the translation follows the
  IEEE outcome on the reachable inputs and says so in a comment.
- a pandas Series/column is a `List`; every column-producing operation
  preserves length, mirroring pandas index alignment.
- fallible effects (HTTP fetch, chat completion, file write) are
  explicit arguments or `Except` values.
-/

namespace MyPage

/-- One OHLCV observation, a row of the DataFrame built by
`get_coinbase_candles` with columns
`["time", "low", "high", "open", "close", "volume"]`.
The `time` cell stays the numeric epoch value (the conversion
`pd.to_datetime(df["time"], unit="s")` is an order-preserving change of
representation).  `open` is a Lean keyword, hence the field name `open_`. -/
structure Candle where
  time : ℚ
  low : ℚ
  high : ℚ
  open_ : ℚ
  close : ℚ
  volume : ℚ
deriving DecidableEq

def defaultCandle : Candle := ⟨0, 0, 0, 0, 0, 0⟩

/-- A row of the DataFrame after `add_indicators` has assigned the five
indicator columns.  `SMA20` and `RSI` can be NaN (`none`); the three
EWM-based columns are defined from the first row on. -/
structure Row where
  time : ℚ
  low : ℚ
  high : ℚ
  open_ : ℚ
  close : ℚ
  volume : ℚ
  SMA20 : Option ℚ
  EMA20 : ℚ
  RSI : Option ℚ
  MACD : ℚ
  Signal : ℚ
deriving DecidableEq

def defaultRow : Row := ⟨0, 0, 0, 0, 0, 0, none, 0, none, 0, 0⟩

/-- The `close` column of a candle DataFrame. -/
def closesOf (df : List Candle) : List ℚ := df.map Candle.close

/-- `series.rolling(window=w).mean()`: cell `i` is NaN until a full
window of `w` observations ending at `i` exists, and otherwise the mean
of cells `i - w + 1 .. i`. -/
def rollingMean (w : ℕ) (xs : List ℚ) : List (Option ℚ) :=
  (List.range xs.length).map (fun i =>
    if w ≤ i + 1 then some ((((xs.drop (i + 1 - w)).take w).sum) / (w : ℚ)) else none)

/-- Helper for `ewm`: the tail of the exponentially weighted mean with
`adjust=False`, where `p` is the accumulated value for the previous cell. -/
def ewmFrom (a : ℚ) (p : ℚ) : List ℚ → List ℚ
  | [] => []
  | x :: xs => (a * x + (1 - a) * p) :: ewmFrom a (a * x + (1 - a) * p) xs

/-- `series.ewm(span=s, adjust=False).mean()` with `a = 2 / (s + 1)`:
cell 0 is the raw first value, cell i+1 is `a*x[i+1] + (1-a)*y[i]`. -/
def ewm (a : ℚ) : List ℚ → List ℚ
  | [] => []
  | x :: xs => x :: ewmFrom a x xs

/-- `series.diff()`: NaN at cell 0, `x[i] - x[i-1]` afterwards. -/
def diffSeries (xs : List ℚ) : List (Option ℚ) :=
  (List.range xs.length).map (fun i =>
    if i = 0 then none else some (xs.getD i 0 - xs.getD (i - 1) 0))

/-- One cell of `delta.where(delta > 0, 0)`.  pandas `where` keeps the
cell when the condition holds and substitutes `0` otherwise; the NaN
cell at index 0 compares as not-greater-than-zero, so it is replaced by
`0` as well. -/
def gainOfDelta : Option ℚ → ℚ
  | none => 0
  | some d => if 0 < d then d else 0

/-- One cell of `-delta.where(delta < 0, 0)`: the negation of the kept
negative delta, `0` elsewhere (again including the NaN cell at index 0). -/
def lossOfDelta : Option ℚ → ℚ
  | none => 0
  | some d => if d < 0 then -d else 0

/-- `gain = delta.where(delta > 0, 0)` as a column. -/
def gainColumn (closes : List ℚ) : List ℚ := (diffSeries closes).map gainOfDelta

/-- `loss = -delta.where(delta < 0, 0)` as a column. -/
def lossColumn (closes : List ℚ) : List ℚ := (diffSeries closes).map lossOfDelta

/-- `avg_gain = gain.rolling(window=14).mean()`. -/
def avgGainColumn (closes : List ℚ) : List (Option ℚ) := rollingMean 14 (gainColumn closes)

/-- `avg_loss = loss.rolling(window=14).mean()`. -/
def avgLossColumn (closes : List ℚ) : List (Option ℚ) := rollingMean 14 (lossColumn closes)

/-- One cell of `rs = avg_gain / avg_loss; RSI = 100 - (100 / (1 + rs))`
under float64 semantics.  Both averages are means of nonnegative
columns, so on every reachable cell `g ≥ 0` and `l ≥ 0` hold and the
float outcomes are: `l > 0` gives a finite `rs = g / l` and the usual
formula; `l = 0 < g` gives `rs = +inf`, `100 / (1 + inf) = 0`, hence
exactly `100`; `l = 0 = g` gives `rs = NaN`, hence a NaN cell. -/
def rsiCell : Option ℚ → Option ℚ → Option ℚ
  | some g, some l =>
      if 0 < l then some (100 - 100 / (1 + g / l))
      else if 0 < g then some 100
      else none
  | _, _ => none

/-- The `RSI` column: elementwise combination of the two aligned
average columns. -/
def rsiColumn (closes : List ℚ) : List (Option ℚ) :=
  (List.range closes.length).map (fun i =>
    rsiCell ((avgGainColumn closes).getD i none) ((avgLossColumn closes).getD i none))

/-- `df["SMA20"] = df["close"].rolling(window=20).mean()`. -/
def sma20Column (closes : List ℚ) : List (Option ℚ) := rollingMean 20 closes

/-- `df["EMA20"] = df["close"].ewm(span=20, adjust=False).mean()`,
so `a = 2 / 21`. -/
def ema20Column (closes : List ℚ) : List ℚ := ewm (2 / 21) closes

/-- `short_ema = df["close"].ewm(span=12, adjust=False).mean()`. -/
def shortEmaColumn (closes : List ℚ) : List ℚ := ewm (2 / 13) closes

/-- `long_ema = df["close"].ewm(span=26, adjust=False).mean()`. -/
def longEmaColumn (closes : List ℚ) : List ℚ := ewm (2 / 27) closes

/-- `df["MACD"] = short_ema - long_ema`, an aligned elementwise
difference. -/
def macdColumn (closes : List ℚ) : List ℚ :=
  (List.range closes.length).map (fun i =>
    (shortEmaColumn closes).getD i 0 - (longEmaColumn closes).getD i 0)

/-- `df["Signal"] = df["MACD"].ewm(span=9, adjust=False).mean()`. -/
def signalColumn (closes : List ℚ) : List ℚ := ewm (2 / 10) (macdColumn closes)

/-- `add_indicators` from `src/main.py`: assigns the five indicator
columns and returns the same rows with the new fields attached. -/
def add_indicators (df : List Candle) : List Row :=
  (List.range df.length).map (fun i =>
    let closes := closesOf df
    let c := df.getD i defaultCandle
    { time := c.time, low := c.low, high := c.high, open_ := c.open_,
      close := c.close, volume := c.volume,
      SMA20 := (sma20Column closes).getD i none,
      EMA20 := (ema20Column closes).getD i 0,
      RSI := (rsiColumn closes).getD i none,
      MACD := (macdColumn closes).getD i 0,
      Signal := (signalColumn closes).getD i 0 })

/-- Modelled from the spec: the recursive EWM form
`EMA[0] = x[0]`, `EMA[i] = a*x[i] + (1-a)*EMA[i-1]` with `a = 2/(span+1)`.
This is the comparison definition for the MACD/Signal claim; the code
side is the `ewm` column combinator above. -/
def emaRecSpec (a : ℚ) (xs : List ℚ) : ℕ → ℚ
  | 0 => xs.getD 0 0
  | i + 1 => a * xs.getD (i + 1) 0 + (1 - a) * emaRecSpec a xs i

/-! ### Failure taxonomy and the Candle Fetcher

`requests.get` raises on network failure only — it does not raise on a
non-2xx status, and `get_coinbase_candles` never reads
`response.status_code`.  `response.json()` raises on a malformed or
empty body.  `pd.DataFrame(data, columns=[...])` raises `ValueError`
when `data` is a flat object of scalars (the shape of a Coinbase error
body) or when the row arity does not match the six columns. -/

inductive Err where
  | network
  | jsonDecode
  | valueError
  | apiFailure
  | emptyChoices
  | ioFailure
deriving DecidableEq

/-- The body of an HTTP response after `response.json()` succeeded:
either a JSON array of numeric rows, or a flat JSON object with scalar
string fields (how the exchange reports errors). -/
inductive Json where
  | arr (rows : List (List ℚ))
  | obj (fields : List (String × String))

/-- An HTTP response: the status code and the outcome of parsing the
body as JSON (`Except.error` = malformed or empty body). -/
structure HttpResponse where
  statusCode : ℕ
  jsonBody : Except Err Json

/-- One parsed response row `[time, low, high, open, close, volume]`. -/
def candleOfRow (r : List ℚ) : Candle :=
  ⟨r.getD 0 0, r.getD 1 0, r.getD 2 0, r.getD 3 0, r.getD 4 0, r.getD 5 0⟩

/-- `pd.DataFrame(data, columns=["time","low","high","open","close","volume"])`:
a list of 6-cell rows builds the frame (an empty list gives an empty
frame); a scalar-object body raises `ValueError`, as does a row whose
arity differs from the six named columns. -/
def makeDataFrame : Json → Except Err (List Candle)
  | .obj _ => .error .valueError
  | .arr rows =>
      if rows.all (fun r => r.length == 6) then .ok (rows.map candleOfRow)
      else .error .valueError

/-- Insertion step for `df.sort_values("time")` (ascending). -/
def insertByTime (c : Candle) : List Candle → List Candle
  | [] => [c]
  | d :: ds => if d.time ≤ c.time then d :: insertByTime c ds else c :: d :: ds

/-- `df.sort_values("time")`: sort the rows ascending by the time cell. -/
def sortByTime : List Candle → List Candle
  | [] => []
  | c :: cs => insertByTime c (sortByTime cs)

/-- `get_coinbase_candles` from `src/main.py`.  The network interaction
is the explicit argument: `Except.error` is a raised network failure
inside `requests.get`, `Except.ok` is whatever response arrived.  Note
that the function never consults `statusCode` — the source has no
`raise_for_status` or status check. -/
def get_coinbase_candles (resp : Except Err HttpResponse) : Except Err (List Candle) :=
  match resp with
  | .error e => .error e
  | .ok r =>
      match r.jsonBody with
      | .error e => .error e
      | .ok j =>
          match makeDataFrame j with
          | .error e => .error e
          | .ok df => .ok (sortByTime df)

/-! ### The Summarizer (`analyze_with_chatgpt`) -/

structure ChatMessage where
  role : String
  content : String
deriving DecidableEq

structure ChatRequest where
  model : String
  messages : List ChatMessage
deriving DecidableEq

structure ChatChoiceMessage where
  content : String
deriving DecidableEq

structure ChatChoice where
  message : ChatChoiceMessage
deriving DecidableEq

structure ChatCompletion where
  choices : List ChatChoice
deriving DecidableEq

/-- The fixed instruction prompt (module constant `PROMPT`). -/
def PROMPT : String :=
  "Identify support and resistance levels for Solana based on the provided OHLCV data and technical indicators. Write a short summary in this format: Solana is currently trading at $X. The daily support level is $Y and the daily resistance level is $Z."

/-- Module constant `gpt_version = "5"`. -/
def gpt_version : String := "5"

/-- `df.tail(n)`: the last `n` rows, or all rows when fewer exist. -/
def tail {α : Type} (n : ℕ) (xs : List α) : List α := xs.drop (xs.length - n)

/-- Rendering of one float cell of the serialized sample; a NaN cell
prints as `nan`.  The textual format of numbers abstracts the Python
float repr; which cells and fields appear is faithful. -/
def renderCell : Option ℚ → String
  | none => "nan"
  | some q => toString q

/-- One row of `df.tail(100).to_dict(orient="records")`: a flat record
of all OHLCV and indicator fields, in DataFrame column order. -/
def renderRecord (r : Row) : String :=
  "time=" ++ toString r.time ++ " low=" ++ toString r.low ++ " high=" ++ toString r.high ++
    " open=" ++ toString r.open_ ++ " close=" ++ toString r.close ++
    " volume=" ++ toString r.volume ++ " SMA20=" ++ renderCell r.SMA20 ++
    " EMA20=" ++ toString r.EMA20 ++ " RSI=" ++ renderCell r.RSI ++
    " MACD=" ++ toString r.MACD ++ " Signal=" ++ toString r.Signal

/-- The serialized data sample interpolated into the user message. -/
def serializeRecords (rows : List Row) : String :=
  String.intercalate "; " (rows.map renderRecord)

/-- `analyze_with_chatgpt` from `src/main.py`.  The chat-completion
service is the explicit `complete` argument.  The straight-line source
issues exactly one `client.chat.completions.create` call; the second
component of the result is the list of requests issued, in order.
`completion.choices[0]` raises when no choice came back; otherwise the
message content of the top choice is returned unchanged. -/
def analyze_with_chatgpt (df : List Row)
    (complete : ChatRequest → Except Err ChatCompletion) :
    Except Err String × List ChatRequest :=
  let data_sample := serializeRecords (tail 100 df)
  let request : ChatRequest :=
    { model := "gpt-" ++ gpt_version,
      messages := [{ role := "system", content := PROMPT },
                   { role := "user",
                     content := "\n\nHere is the OHLCV + indicators data:\n" ++ data_sample }] }
  (match complete request with
   | .error e => .error e
   | .ok completion =>
       match completion.choices.head? with
       | some choice => .ok choice.message.content
       | none => .error .emptyChoices,
   [request])

/-- The one chat request `analyze_with_chatgpt` constructs: the model
identifier `gpt-5` and two message turns, the fixed system prompt and
the user turn carrying the label plus the serialized tail sample. -/
def requestFor (df : List Row) : ChatRequest :=
  { model := "gpt-" ++ gpt_version,
    messages := [{ role := "system", content := PROMPT },
                 { role := "user",
                   content := "\n\nHere is the OHLCV + indicators data:\n" ++
                     serializeRecords (tail 100 df) }] }

/-! ### `main` and the module-level render/write -/

/-- The separator line appended below the analysis text in `main`. -/
def separatorLine : String :=
  "-------------------------------------------------------------------------"

/-- `main` from `src/main.py`: fetch, enrich, summarize, and build the
displayed message.  `now` is the formatted current UTC time string. -/
def main (fetchResp : Except Err HttpResponse)
    (complete : ChatRequest → Except Err ChatCompletion) (now : String) :
    Except Err String :=
  match get_coinbase_candles fetchResp with
  | .error e => .error e
  | .ok candles =>
      match (analyze_with_chatgpt (add_indicators candles) complete).1 with
      | .error e => .error e
      | .ok analysis =>
          .ok (analysis ++ "\n" ++ separatorLine ++ "\n End analysis at " ++ now)

/-- The fixed HTML document up to the content slot (the f-string text
before the interpolated analysis). -/
def htmlPrefix : String :=
  String.intercalate "\n"
    ["",
     "<!DOCTYPE html>",
     "<html lang=\"en\">",
     "  <head>",
     "    <meta charset=\"UTF-8\" />",
     "    <title>Imran A</title>",
     "    <link rel=\"stylesheet\" href=\"css/styles.css\" />",
     "    <link rel=\"icon\" href=\"images/myicon.ico?v=2\" />",
     "    <link rel=\"preconnect\" href=\"https://fonts.googleapis.com\" />",
     "    <link rel=\"preconnect\" href=\"https://fonts.gstatic.com\" crossorigin />",
     "    <link",
     "      href=\"https://fonts.googleapis.com/css2?family=Source+Code+Pro&display=swap\"",
     "      rel=\"stylesheet\"",
     "    />",
     "  </head>",
     "",
     "  <body>",
     "    <div>",
     "      <table id=\"topsection\">",
     "        <tr>",
     "          <td>",
     "            <img",
     "              class=\"profilepic\"",
     "              src=\"images/profilepic.png?v=2\"",
     "              alt=\"profile pic Imran Aurangzeb\"",
     "              srcset=\"\"",
     "            />",
     "          </td>",
     "          <td>",
     "            <h1 class=\"nametitle\">Imran A</h1>",
     "          </td>",
     "        </tr>",
     "      </table>",
     "    </div>",
     "",
     "    <hr size=\"3\" />",
     "",
     "    <div>",
     "      <p>",
     "        I began programming in BASIC on the Commodore 64 at the age of twelve.",
     "        In my fifth decade, following a long hiatus during which I pursued a",
     "        career in medicine, I chose to rekindle this passion. The journey has",
     "        proved immensely rewarding.",
     "      </p>",
     "      <br />",
     "    </div>",
     "",
     "    <div class=\"two-columns\">",
     "      <div class=\"column\">",
     "        <h2>Column One</h2>",
     "        <p>",
     "          "]

/-- The fixed HTML document after the content slot. -/
def htmlSuffix : String :=
  String.intercalate "\n"
    ["",
     "        </p>",
     "      </div>",
     "      <div class=\"column\">",
     "        <h2>Column Two</h2>",
     "        <p>",
     "          Suspendisse potenti. Nulla facilisi. Donec vitae eros vel sapien",
     "          suscipit porttitor. Phasellus at augue a mi pretium bibendum.",
     "          Suspendisse potenti. Nulla facilisi. Donec vitae eros vel sapien",
     "          suscipit porttitor. Phasellus at augue a mi pretium bibendum.",
     "        </p>",
     "      </div>",
     "    </div>",
     "  </body>",
     "</html>",
     "",
     ""]

/-- The full page with the analysis text spliced verbatim (no escaping)
into the content slot. -/
def pageContent (analysis : String) : String := htmlPrefix ++ analysis ++ htmlSuffix

/-- How the final `with open("index.html", "w") as f: f.write(content)`
behaves.  `ok` — the write succeeds; `failOpen` — `open` itself raises
before touching the file; `failMid k` — `open` succeeded (truncating
the file, since mode `"w"` truncates) and the write raised after `k`
characters reached the file. -/
inductive WriteOutcome where
  | ok
  | failOpen
  | failMid (written : ℕ)

/-- The file-system effect of the final write.  First component: the
contents of `index.html` afterwards (`none` = no such file); second:
the raised error, if any. -/
def writeIndexHtml (content : String) (w : WriteOutcome) (fs : Option String) :
    Option String × Option Err :=
  match w with
  | .ok => (some content, none)
  | .failOpen => (fs, some .ioFailure)
  | .failMid k => (some (String.mk (content.data.take k)), some .ioFailure)

/-- The whole module run of `src/main.py`: `analysis = main(...)`, then
the f-string template, then the write.  Any exception raised inside
`main` propagates before `open` is ever reached, leaving the previous
file contents `fs` untouched. -/
def runScript (fetchResp : Except Err HttpResponse)
    (complete : ChatRequest → Except Err ChatCompletion)
    (now : String) (w : WriteOutcome) (fs : Option String) :
    Option String × Option Err :=
  match main fetchResp complete now with
  | .error e => (fs, some e)
  | .ok analysis => writeIndexHtml (pageContent analysis) w fs

/-! ### The second copy of the Indicator Engine

`src/src/resistance_support.py` defines its own `add_indicators`
(lines 64 to 81); the translation below mirrors that file. -/

namespace ResistanceSupport

def gainColumn (closes : List ℚ) : List ℚ := (diffSeries closes).map gainOfDelta

def lossColumn (closes : List ℚ) : List ℚ := (diffSeries closes).map lossOfDelta

def avgGainColumn (closes : List ℚ) : List (Option ℚ) := rollingMean 14 (gainColumn closes)

def avgLossColumn (closes : List ℚ) : List (Option ℚ) := rollingMean 14 (lossColumn closes)

def rsiColumn (closes : List ℚ) : List (Option ℚ) :=
  (List.range closes.length).map (fun i =>
    rsiCell ((avgGainColumn closes).getD i none) ((avgLossColumn closes).getD i none))

def sma20Column (closes : List ℚ) : List (Option ℚ) := rollingMean 20 closes

def ema20Column (closes : List ℚ) : List ℚ := ewm (2 / 21) closes

def shortEmaColumn (closes : List ℚ) : List ℚ := ewm (2 / 13) closes

def longEmaColumn (closes : List ℚ) : List ℚ := ewm (2 / 27) closes

def macdColumn (closes : List ℚ) : List ℚ :=
  (List.range closes.length).map (fun i =>
    (shortEmaColumn closes).getD i 0 - (longEmaColumn closes).getD i 0)

def signalColumn (closes : List ℚ) : List ℚ := ewm (2 / 10) (macdColumn closes)

/-- `add_indicators` from `src/src/resistance_support.py`. -/
def add_indicators (df : List Candle) : List Row :=
  (List.range df.length).map (fun i =>
    let closes := closesOf df
    let c := df.getD i defaultCandle
    { time := c.time, low := c.low, high := c.high, open_ := c.open_,
      close := c.close, volume := c.volume,
      SMA20 := (sma20Column closes).getD i none,
      EMA20 := (ema20Column closes).getD i 0,
      RSI := (rsiColumn closes).getD i none,
      MACD := (macdColumn closes).getD i 0,
      Signal := (signalColumn closes).getD i 0 })

end ResistanceSupport

/-! ### Concrete fixtures used by witnesses and counterexamples -/

/-- Fourteen candles whose closes rise by 1 each step: every delta is a
gain, so the 14-cell average loss at index 13 is zero. -/
def testDf14 : List Candle :=
  (List.range 14).map (fun i : ℕ => { defaultCandle with time := (i : ℚ), close := (i : ℚ) + 1 })

/-- Fourteen candles whose closes alternate between 1 and 2: both the
average gain and the average loss at index 13 are positive. -/
def testDfAlt : List Candle :=
  (List.range 14).map (fun i : ℕ =>
    { defaultCandle with time := (i : ℚ), close := if i % 2 = 0 then 1 else 2 })

/-- Twenty candles whose closes are 1, 2, ..., 20, enough history for
the 20-candle simple moving average. -/
def testDf20 : List Candle :=
  (List.range 20).map (fun i : ℕ => { defaultCandle with time := (i : ℚ), close := (i : ℚ) + 1 })

/-- A fetch response: HTTP 200 whose body is the empty JSON array. -/
def emptyFetch : Except Err HttpResponse := .ok ⟨200, .ok (.arr [])⟩

/-- A chat-completion service that always answers with one choice. -/
def okComplete : ChatRequest → Except Err ChatCompletion :=
  fun _ => .ok ⟨[⟨⟨"ok"⟩⟩]⟩

/-! ### Indexing and length lemmas for the column combinators -/

theorem getD_map_range {α : Type} (f : ℕ → α) {n i : ℕ} (h : i < n) (d : α) :
    ((List.range n).map f).getD i d = f i := by
  rw [List.getD_eq_getElem?_getD, List.getElem?_map, List.getElem?_range h]
  rfl

@[simp] theorem rollingMean_length (w : ℕ) (xs : List ℚ) :
    (rollingMean w xs).length = xs.length := by
  simp [rollingMean]

@[simp] theorem diffSeries_length (xs : List ℚ) :
    (diffSeries xs).length = xs.length := by
  simp [diffSeries]

@[simp] theorem gainColumn_length (closes : List ℚ) :
    (gainColumn closes).length = closes.length := by
  simp [gainColumn]

@[simp] theorem lossColumn_length (closes : List ℚ) :
    (lossColumn closes).length = closes.length := by
  simp [lossColumn]

@[simp] theorem avgGainColumn_length (closes : List ℚ) :
    (avgGainColumn closes).length = closes.length := by
  simp [avgGainColumn]

@[simp] theorem avgLossColumn_length (closes : List ℚ) :
    (avgLossColumn closes).length = closes.length := by
  simp [avgLossColumn]

@[simp] theorem rsiColumn_length (closes : List ℚ) :
    (rsiColumn closes).length = closes.length := by
  simp [rsiColumn]

@[simp] theorem ewmFrom_length (a p : ℚ) (xs : List ℚ) :
    (ewmFrom a p xs).length = xs.length := by
  induction xs generalizing p with
  | nil => rfl
  | cons x xs ih => simp [ewmFrom, ih]

@[simp] theorem ewm_length (a : ℚ) (xs : List ℚ) :
    (ewm a xs).length = xs.length := by
  cases xs with
  | nil => rfl
  | cons x xs => simp [ewm]

@[simp] theorem closesOf_length (df : List Candle) :
    (closesOf df).length = df.length := by
  simp [closesOf]

@[simp] theorem macdColumn_length (closes : List ℚ) :
    (macdColumn closes).length = closes.length := by
  simp [macdColumn]

@[simp] theorem signalColumn_length (closes : List ℚ) :
    (signalColumn closes).length = closes.length := by
  simp [signalColumn]

@[simp] theorem add_indicators_length (df : List Candle) :
    (add_indicators df).length = df.length := by
  simp [add_indicators]

theorem rollingMean_getD (w : ℕ) (xs : List ℚ) {i : ℕ} (h : i < xs.length) :
    (rollingMean w xs).getD i none =
      if w ≤ i + 1 then some ((((xs.drop (i + 1 - w)).take w).sum) / (w : ℚ)) else none := by
  unfold rollingMean
  exact getD_map_range _ h none

theorem diffSeries_getD (xs : List ℚ) {i : ℕ} (h : i < xs.length) :
    (diffSeries xs).getD i none =
      if i = 0 then none else some (xs.getD i 0 - xs.getD (i - 1) 0) := by
  unfold diffSeries
  exact getD_map_range _ h none

theorem rsiColumn_getD (closes : List ℚ) {i : ℕ} (h : i < closes.length) :
    (rsiColumn closes).getD i none =
      rsiCell ((avgGainColumn closes).getD i none) ((avgLossColumn closes).getD i none) := by
  unfold rsiColumn
  exact getD_map_range _ h none

theorem macdColumn_getD (closes : List ℚ) {i : ℕ} (h : i < closes.length) :
    (macdColumn closes).getD i 0 =
      (shortEmaColumn closes).getD i 0 - (longEmaColumn closes).getD i 0 := by
  unfold macdColumn
  exact getD_map_range _ h 0

/-- A `map` over a column reads through `getD` (within bounds). -/
theorem getD_map {α β : Type} (f : α → β) (l : List α) (dα : α) {i : ℕ}
    (h : i < l.length) : (l.map f).getD i (f dα) = f (l.getD i dα) := by
  rw [List.getD_eq_getElem?_getD, List.getElem?_map,
    List.getD_eq_getElem?_getD, List.getElem?_eq_getElem h]
  rfl

/-! ### The exponentially weighted mean: seed and recurrence -/

theorem ewm_getD_zero (a : ℚ) (xs : List ℚ) :
    (ewm a xs).getD 0 0 = xs.getD 0 0 := by
  cases xs with
  | nil => rfl
  | cons x xs => rfl

theorem ewmFrom_getD_zero (a p : ℚ) (xs : List ℚ) (h : xs ≠ []) :
    (ewmFrom a p xs).getD 0 0 = a * xs.getD 0 0 + (1 - a) * p := by
  cases xs with
  | nil => exact absurd rfl h
  | cons x xs => rfl

theorem ewmFrom_getD_succ (a : ℚ) (xs : List ℚ) :
    ∀ p i, i + 1 < xs.length →
      (ewmFrom a p xs).getD (i + 1) 0 =
        a * xs.getD (i + 1) 0 + (1 - a) * (ewmFrom a p xs).getD i 0 := by
  induction xs with
  | nil => intro p i h; simp at h
  | cons x xs ih =>
    intro p i h
    cases i with
    | zero =>
      have hxs : xs ≠ [] := by
        intro hnil
        simp [hnil] at h
      simpa [ewmFrom] using ewmFrom_getD_zero a (a * x + (1 - a) * p) xs hxs
    | succ j =>
      have hj : j + 1 < xs.length := by
        simpa using Nat.lt_of_succ_lt_succ h
      simpa [ewmFrom] using ih (a * x + (1 - a) * p) j hj

theorem ewm_getD_succ (a : ℚ) (xs : List ℚ) {i : ℕ} (h : i + 1 < xs.length) :
    (ewm a xs).getD (i + 1) 0 =
      a * xs.getD (i + 1) 0 + (1 - a) * (ewm a xs).getD i 0 := by
  cases xs with
  | nil => simp at h
  | cons x xs =>
    cases i with
    | zero =>
      have hxs : xs ≠ [] := by
        intro hnil
        simp [hnil] at h
      simpa [ewm] using ewmFrom_getD_zero a x xs hxs
    | succ j =>
      have hj : j + 1 < xs.length := by
        simpa using Nat.lt_of_succ_lt_succ h
      simpa [ewm] using ewmFrom_getD_succ a xs x j hj

/-! ### Row characterization of `add_indicators` -/

theorem add_indicators_getD (df : List Candle) {i : ℕ} (h : i < df.length) :
    (add_indicators df).getD i defaultRow =
      { time := (df.getD i defaultCandle).time,
        low := (df.getD i defaultCandle).low,
        high := (df.getD i defaultCandle).high,
        open_ := (df.getD i defaultCandle).open_,
        close := (df.getD i defaultCandle).close,
        volume := (df.getD i defaultCandle).volume,
        SMA20 := (sma20Column (closesOf df)).getD i none,
        EMA20 := (ema20Column (closesOf df)).getD i 0,
        RSI := (rsiColumn (closesOf df)).getD i none,
        MACD := (macdColumn (closesOf df)).getD i 0,
        Signal := (signalColumn (closesOf df)).getD i 0 } := by
  unfold add_indicators
  exact getD_map_range _ h defaultRow

/-! ### Window sums and nonnegativity of gain/loss -/

/-- A contiguous window of a column, summed, is the sum of the
positional cells it covers. -/
theorem sum_take_drop (xs : List ℚ) :
    ∀ (w a : ℕ), a + w ≤ xs.length →
      ((xs.drop a).take w).sum = ∑ j ∈ Finset.range w, xs.getD (a + j) 0 := by
  intro w
  induction w with
  | zero => intro a _; simp
  | succ v ih =>
    intro a h
    have ha : a < xs.length := by omega
    have hdrop : xs.drop a = xs[a] :: xs.drop (a + 1) := List.drop_eq_getElem_cons ha
    rw [hdrop, List.take_succ_cons, List.sum_cons, ih (a + 1) (by omega),
      Finset.sum_range_succ' (fun j => xs.getD (a + j) 0) v]
    have h0 : xs.getD (a + 0) 0 = xs[a] := by
      rw [Nat.add_zero]
      exact List.getD_eq_getElem xs 0 ha
    have hshift : ∀ j, xs.getD (a + 1 + j) 0 = xs.getD (a + (j + 1)) 0 := by
      intro j
      congr 1
      omega
    rw [h0]
    rw [Finset.sum_congr rfl (fun j _ => hshift j)]
    ring

theorem gainColumn_nonneg (closes : List ℚ) :
    ∀ x ∈ gainColumn closes, 0 ≤ x := by
  intro x hx
  rcases List.mem_map.mp hx with ⟨d, _, rfl⟩
  cases d with
  | none => simp [gainOfDelta]
  | some v =>
    simp only [gainOfDelta]
    split <;> [linarith; exact le_refl 0]

theorem lossColumn_nonneg (closes : List ℚ) :
    ∀ x ∈ lossColumn closes, 0 ≤ x := by
  intro x hx
  rcases List.mem_map.mp hx with ⟨d, _, rfl⟩
  cases d with
  | none => simp [lossOfDelta]
  | some v =>
    simp only [lossOfDelta]
    split <;> [linarith; exact le_refl 0]

/-- A rolling mean over a nonnegative column only produces nonnegative
defined cells. -/
theorem rollingMean_nonneg {w : ℕ} {xs : List ℚ} (hpos : ∀ x ∈ xs, 0 ≤ x)
    {i : ℕ} {g : ℚ} (h : (rollingMean w xs).getD i none = some g) : 0 ≤ g := by
  have hi : i < xs.length := by
    by_contra hge
    have hnone : (rollingMean w xs).getD i none = none := by
      apply List.getD_eq_default
      simpa using Nat.le_of_not_lt hge
    rw [hnone] at h
    exact Option.noConfusion h
  rw [rollingMean_getD w xs hi] at h
  by_cases hw : w ≤ i + 1
  · rw [if_pos hw] at h
    have hg : g = (((xs.drop (i + 1 - w)).take w).sum) / (w : ℚ) := by
      exact (Option.some.injEq _ _ ▸ h).symm
    have hsum : 0 ≤ ((xs.drop (i + 1 - w)).take w).sum := by
      apply List.sum_nonneg
      intro x hxmem
      exact hpos x (List.mem_of_mem_drop (List.mem_of_mem_take hxmem))
    rw [hg]
    positivity
  · rw [if_neg hw] at h
    simp at h

@[simp] theorem testDf14_length : testDf14.length = 14 := by
  rw [testDf14, List.length_map, List.length_range]

theorem testDf14_ne_nil : testDf14 ≠ [] :=
  List.ne_nil_of_length_pos (by rw [testDf14_length]; norm_num)

@[simp] theorem testDfAlt_length : testDfAlt.length = 14 := by
  rw [testDfAlt, List.length_map, List.length_range]

@[simp] theorem testDf20_length : testDf20.length = 20 := by
  rw [testDf20, List.length_map, List.length_range]

/-- The close column reads back the candle at the same index. -/
theorem closesOf_getD (df : List Candle) {i : ℕ} (h : i < df.length) :
    (closesOf df).getD i 0 = (df.getD i defaultCandle).close := by
  unfold closesOf
  exact getD_map Candle.close df defaultCandle h

/-- The code-side `ewm` column agrees with the spec-side recursive form
at every in-range index. -/
theorem ewm_getD_eq_emaRecSpec (a : ℚ) (xs : List ℚ) :
    ∀ i, i < xs.length → (ewm a xs).getD i 0 = emaRecSpec a xs i := by
  intro i
  induction i with
  | zero => intro _; exact ewm_getD_zero a xs
  | succ j ih =>
    intro h
    rw [ewm_getD_succ a xs h, ih (Nat.lt_of_succ_lt h)]
    rfl

/-- Claim C2 (confirmed): for every input CandleSeries the output of
`add_indicators` has exactly as many rows, in the same positional
order, and the time, low, high, open, close and volume cells of every
row are unchanged — only the indicator fields are new. -/
theorem add_indicators_frame_preservation (df : List Candle) :
    (add_indicators df).length = df.length ∧
    ∀ i, i < df.length →
      ((add_indicators df).getD i defaultRow).time = (df.getD i defaultCandle).time ∧
      ((add_indicators df).getD i defaultRow).low = (df.getD i defaultCandle).low ∧
      ((add_indicators df).getD i defaultRow).high = (df.getD i defaultCandle).high ∧
      ((add_indicators df).getD i defaultRow).open_ = (df.getD i defaultCandle).open_ ∧
      ((add_indicators df).getD i defaultRow).close = (df.getD i defaultCandle).close ∧
      ((add_indicators df).getD i defaultRow).volume = (df.getD i defaultCandle).volume := by
  refine ⟨add_indicators_length df, fun i h => ?_⟩
  rw [add_indicators_getD df h]
  exact ⟨rfl, rfl, rfl, rfl, rfl, rfl⟩

/-- Witness for C2 at a concrete series and row. -/
theorem add_indicators_frame_preservation_witness :
    (add_indicators testDf14).length = testDf14.length ∧
    ((add_indicators testDf14).getD 0 defaultRow).close = (testDf14.getD 0 defaultCandle).close :=
  ⟨(add_indicators_frame_preservation testDf14).1,
   ((add_indicators_frame_preservation testDf14).2 0 (by rw [testDf14_length]; norm_num)).2.2.2.2.1⟩

/-- Claim C3 (confirmed): the SMA20 cell is defined exactly from index
19 on, and a defined cell is the arithmetic mean of the twenty closes
`close[i-19..i]` (stated denominator-free as `20 * q = sum`). -/
theorem sma20_window_spec (df : List Candle) (i : ℕ) (h : i < df.length) :
    (((add_indicators df).getD i defaultRow).SMA20.isSome ↔ 19 ≤ i) ∧
    ∀ q, ((add_indicators df).getD i defaultRow).SMA20 = some q →
      20 * q = ∑ j ∈ Finset.Icc (i - 19) i, (closesOf df).getD j 0 := by
  rw [add_indicators_getD df h]
  have hlen : i < (closesOf df).length := by simpa using h
  dsimp only
  rw [sma20Column, rollingMean_getD 20 _ hlen]
  by_cases hw : 20 ≤ i + 1
  · rw [if_pos hw]
    refine ⟨by simpa using (by omega : 19 ≤ i), fun q hq => ?_⟩
    have hq' : q = (((closesOf df).drop (i + 1 - 20)).take 20).sum / (20 : ℚ) :=
      (Option.some_injective ℚ hq).symm
    have hsum : (((closesOf df).drop (i + 1 - 20)).take 20).sum =
        ∑ j ∈ Finset.range 20, (closesOf df).getD ((i + 1 - 20) + j) 0 :=
      sum_take_drop (closesOf df) 20 (i + 1 - 20) (by omega)
    have hicc : ∑ j ∈ Finset.Icc (i - 19) i, (closesOf df).getD j 0 =
        ∑ j ∈ Finset.range 20, (closesOf df).getD ((i + 1 - 20) + j) 0 := by
      rw [← Nat.Ico_succ_right,
        Finset.sum_Ico_eq_sum_range (fun j => (closesOf df).getD j 0) (i - 19) (i + 1)]
      have h20 : i + 1 - (i - 19) = 20 := by omega
      have ha : i - 19 = i + 1 - 20 := by omega
      rw [h20, ha]
    rw [hq', hicc, hsum]
    field_simp
  · rw [if_neg hw]
    exact ⟨by simpa using (by omega : ¬ 19 ≤ i), fun q hq => by exact Option.noConfusion hq⟩

/-- Witness for C3: at index 19 of the series 1, 2, ..., 20 the SMA20
cell is defined and twenty times it equals the window sum. -/
theorem sma20_window_spec_witness :
    20 * ((210 : ℚ) / 20) = ∑ j ∈ Finset.Icc 0 19, (closesOf testDf20).getD j 0 := by
  have h : ((add_indicators testDf20).getD 19 defaultRow).SMA20 = some ((210 : ℚ) / 20) := by
    norm_num [add_indicators, sma20Column, rollingMean, closesOf, testDf20, defaultCandle,
      List.range_succ]
  have := (sma20_window_spec testDf20 19 (by rw [testDf20_length]; norm_num)).2 ((210 : ℚ) / 20) h
  simpa using this

/-- Claim C4 (confirmed): the EMA20 column is seeded with the first
close and obeys the recursive exponentially weighted form with
`a = 2/21` at every later index. -/
theorem ema20_recursive_spec (df : List Candle) (h : df ≠ []) :
    ((add_indicators df).getD 0 defaultRow).EMA20 = (df.getD 0 defaultCandle).close ∧
    ∀ i, i + 1 < df.length →
      ((add_indicators df).getD (i + 1) defaultRow).EMA20 =
        (2 / 21) * (df.getD (i + 1) defaultCandle).close +
          (19 / 21) * ((add_indicators df).getD i defaultRow).EMA20 := by
  have h0 : 0 < df.length := List.length_pos.mpr h
  constructor
  · rw [add_indicators_getD df h0]
    dsimp only
    rw [ema20Column, ewm_getD_zero]
    exact closesOf_getD df h0
  · intro i hi
    rw [add_indicators_getD df hi, add_indicators_getD df (Nat.lt_of_succ_lt hi)]
    dsimp only
    have hlen : i + 1 < (closesOf df).length := by simpa using hi
    rw [ema20Column, ewm_getD_succ (2 / 21) _ hlen, closesOf_getD df hi]
    norm_num

/-- Witness for C4: the EMA20 seed at a concrete nonempty series. -/
theorem ema20_recursive_spec_witness :
    ((add_indicators testDf14).getD 0 defaultRow).EMA20 = (testDf14.getD 0 defaultCandle).close :=
  (ema20_recursive_spec testDf14 testDf14_ne_nil).1

/-- Claim C5 (confirmed): every MACD cell is the difference of the
span-12 and span-26 recursive EWMs of the closes (both seeded from the
first close, here the spec-side `emaRecSpec` form), the Signal column
is seeded from `MACD[0]`, and obeys the span-9 recursive EWM of the
MACD column at every later index. -/
theorem macd_signal_spec (df : List Candle) (h : df ≠ []) :
    (∀ i, i < df.length →
        ((add_indicators df).getD i defaultRow).MACD =
          emaRecSpec (2 / 13) (closesOf df) i - emaRecSpec (2 / 27) (closesOf df) i) ∧
    ((add_indicators df).getD 0 defaultRow).Signal =
      ((add_indicators df).getD 0 defaultRow).MACD ∧
    ∀ i, i + 1 < df.length →
      ((add_indicators df).getD (i + 1) defaultRow).Signal =
        (2 / 10) * ((add_indicators df).getD (i + 1) defaultRow).MACD +
          (1 - 2 / 10) * ((add_indicators df).getD i defaultRow).Signal := by
  have h0 : 0 < df.length := List.length_pos.mpr h
  refine ⟨fun i hi => ?_, ?_, fun i hi => ?_⟩
  · rw [add_indicators_getD df hi]
    dsimp only
    have hlen : i < (closesOf df).length := by simpa using hi
    rw [macdColumn_getD _ hlen, shortEmaColumn, longEmaColumn,
      ewm_getD_eq_emaRecSpec (2 / 13) _ i hlen, ewm_getD_eq_emaRecSpec (2 / 27) _ i hlen]
  · rw [add_indicators_getD df h0]
    dsimp only
    rw [signalColumn, ewm_getD_zero]
  · rw [add_indicators_getD df hi, add_indicators_getD df (Nat.lt_of_succ_lt hi)]
    dsimp only
    have hlen : i + 1 < (macdColumn (closesOf df)).length := by simpa using hi
    rw [signalColumn, ewm_getD_succ (2 / 10) _ hlen]

/-- Witness for C5: the MACD cell at index 0 of a concrete series. -/
theorem macd_signal_spec_witness :
    ((add_indicators testDf14).getD 0 defaultRow).MACD =
      emaRecSpec (2 / 13) (closesOf testDf14) 0 - emaRecSpec (2 / 27) (closesOf testDf14) 0 :=
  (macd_signal_spec testDf14 testDf14_ne_nil).1 0 (by rw [testDf14_length]; norm_num)

set_option maxRecDepth 4000 in
/-- Counterexample to claim C1 as stated: the claim asserts the RSI
cell is undefined at every index below 14, but on fourteen strictly
rising closes the cell at index 13 is already defined (and equals 100),
because `delta.where(delta > 0, 0)` turns the undefined first delta
into a zero observation, giving the rolling 14-mean a full window at
index 13. -/
theorem rsi_defined_before_index_14 :
    13 < 14 ∧ ((add_indicators testDf14).getD 13 defaultRow).RSI = some 100 := by
  constructor
  · norm_num
  · norm_num [add_indicators, avgLossColumn, avgGainColumn, closesOf, testDf14, rollingMean,
      lossColumn, gainColumn, diffSeries, lossOfDelta, gainOfDelta, rsiColumn, rsiCell,
      List.range_succ, defaultCandle]

/-- Claim C1 (corrected): the RSI cell is undefined at every index
below 13 (not 14); at any index with a defined positive average loss
the cell is defined and lies in [0, 100]; and the undefined first delta
IS treated as a zero-gain, zero-loss observation — `where` replaces the
NaN delta at index 0 by 0 — which is what moves the first definable RSI
index from 14 to 13 (positional row alignment itself is preserved). -/
theorem rsi_window_alignment (df : List Candle) (i : ℕ) (h : i < df.length) :
    (i < 13 → ((add_indicators df).getD i defaultRow).RSI = none) ∧
    (∀ l, 13 ≤ i → (avgLossColumn (closesOf df)).getD i none = some l → 0 < l →
      ∃ r, ((add_indicators df).getD i defaultRow).RSI = some r ∧ 0 ≤ r ∧ r ≤ 100) ∧
    ((gainColumn (closesOf df)).getD 0 0 = 0 ∧ (lossColumn (closesOf df)).getD 0 0 = 0) := by
  have hc : i < (closesOf df).length := by simpa using h
  have h0 : 0 < (closesOf df).length := Nat.lt_of_le_of_lt (Nat.zero_le i) hc
  refine ⟨?_, ?_, ?_, ?_⟩
  · intro hi
    rw [add_indicators_getD df h]
    dsimp only
    rw [rsiColumn_getD _ hc]
    have hga : (avgGainColumn (closesOf df)).getD i none = none := by
      rw [avgGainColumn, rollingMean_getD 14 _ (by simpa using hc), if_neg (by omega)]
    have hla : (avgLossColumn (closesOf df)).getD i none = none := by
      rw [avgLossColumn, rollingMean_getD 14 _ (by simpa using hc), if_neg (by omega)]
    rw [hga, hla]
    rfl
  · intro l _ hl hlpos
    rw [add_indicators_getD df h]
    dsimp only
    rw [rsiColumn_getD _ hc]
    obtain ⟨g, hg⟩ : ∃ g, (avgGainColumn (closesOf df)).getD i none = some g := by
      rw [avgGainColumn, rollingMean_getD 14 _ (by simpa using hc), if_pos (by omega)]
      exact ⟨_, rfl⟩
    have hg' : (rollingMean 14 (gainColumn (closesOf df))).getD i none = some g := hg
    have hg0 : 0 ≤ g := rollingMean_nonneg (gainColumn_nonneg (closesOf df)) hg'
    rw [hg, hl]
    have hdiv : 0 ≤ g / l := div_nonneg hg0 hlpos.le
    have h1 : (0 : ℚ) < 1 + g / l := by linarith
    have hle : 100 / (1 + g / l) ≤ 100 := by
      rw [div_le_iff₀ h1]
      nlinarith
    have hpos' : 0 < 100 / (1 + g / l) := by positivity
    refine ⟨100 - 100 / (1 + g / l), ?_, by linarith, by linarith⟩
    simp only [rsiCell]
    rw [if_pos hlpos]
  · show (List.map gainOfDelta (diffSeries (closesOf df))).getD 0 0 = 0
    have hmap := getD_map gainOfDelta (diffSeries (closesOf df)) none (i := 0)
      (by simpa using h0)
    rw [diffSeries_getD _ (by simpa using h0)] at hmap
    simpa [gainOfDelta] using hmap
  · show (List.map lossOfDelta (diffSeries (closesOf df))).getD 0 0 = 0
    have hmap := getD_map lossOfDelta (diffSeries (closesOf df)) none (i := 0)
      (by simpa using h0)
    rw [diffSeries_getD _ (by simpa using h0)] at hmap
    simpa [lossOfDelta] using hmap

set_option maxRecDepth 4000 in
/-- Witness for the amended C1: on alternating closes the average loss
at index 13 is 3/7 > 0 and the RSI cell there is defined and in
[0, 100]. -/
theorem rsi_window_alignment_witness :
    ∃ r, ((add_indicators testDfAlt).getD 13 defaultRow).RSI = some r ∧ 0 ≤ r ∧ r ≤ 100 :=
  (rsi_window_alignment testDfAlt 13 (by rw [testDfAlt_length]; norm_num)).2.1 (3 / 7)
    (by norm_num)
    (by norm_num [avgLossColumn, closesOf, testDfAlt, rollingMean, lossColumn, diffSeries,
      lossOfDelta, List.range_succ, defaultCandle])
    (by norm_num)

/-- Claim C6 (confirmed): at any index where the average loss cell is
defined and zero, the RSI cell is not clamped to a finite cap: a
positive average gain propagates the infinite relative strength to an
RSI of exactly 100, and a zero average gain leaves the cell undefined
(0/0 is NaN) — no special-casing. -/
theorem rsi_divide_by_zero_spec (df : List Candle) (i : ℕ) (h : i < df.length)
    (_h13 : 13 ≤ i)
    (hl : (avgLossColumn (closesOf df)).getD i none = some 0) :
    (∀ g, (avgGainColumn (closesOf df)).getD i none = some g → 0 < g →
      ((add_indicators df).getD i defaultRow).RSI = some 100) ∧
    ((avgGainColumn (closesOf df)).getD i none = some 0 →
      ((add_indicators df).getD i defaultRow).RSI = none) := by
  have hc : i < (closesOf df).length := by simpa using h
  constructor
  · intro g hg hgpos
    rw [add_indicators_getD df h]
    dsimp only
    rw [rsiColumn_getD _ hc, hg, hl]
    simp only [rsiCell]
    rw [if_neg (lt_irrefl (0 : ℚ)), if_pos hgpos]
  · intro hg
    rw [add_indicators_getD df h]
    dsimp only
    rw [rsiColumn_getD _ hc, hg, hl]
    simp only [rsiCell]
    rw [if_neg (lt_irrefl (0 : ℚ)), if_neg (lt_irrefl (0 : ℚ))]

set_option maxRecDepth 4000 in
/-- Witness for C6: on fourteen strictly rising closes the average loss
at index 13 is zero, the average gain is 13/14 > 0, and the RSI cell is
exactly 100. -/
theorem rsi_divide_by_zero_spec_witness :
    ((add_indicators testDf14).getD 13 defaultRow).RSI = some 100 :=
  (rsi_divide_by_zero_spec testDf14 13 (by rw [testDf14_length]; norm_num) (by norm_num)
      (by norm_num [avgLossColumn, closesOf, testDf14, rollingMean, lossColumn, diffSeries,
        lossOfDelta, List.range_succ, defaultCandle])).1 (13 / 14)
    (by norm_num [avgGainColumn, closesOf, testDf14, rollingMean, gainColumn, diffSeries,
      gainOfDelta, List.range_succ, defaultCandle])
    (by norm_num)

/-- Counterexample to claim C7 as stated: the claim asserts that a
failing write leaves the previous file untouched, but `open` with mode
`"w"` truncates before writing, so a write that fails mid-flight
destroys the previous contents (here leaving an empty file). -/
theorem write_failure_truncates_previous_file :
    runScript emptyFetch okComplete "ts" (.failMid 0) (some "previous") =
      (some "", some Err.ioFailure) ∧ (some "" : Option String) ≠ some "previous" := by
  constructor
  · rfl
  · decide

/-- Claim C7 (corrected): a failure in the fetch or the chat-completion
call aborts the run before `open` is reached, leaving the previous file
untouched, as does a failure of `open` itself; but a failure during the
write proper leaves a truncated partial file (mode `"w"` truncates on
open), and the full page is written exactly when the whole pipeline
completes. -/
theorem pipeline_all_or_nothing (fetchResp : Except Err HttpResponse)
    (complete : ChatRequest → Except Err ChatCompletion)
    (now : String) (w : WriteOutcome) (fs : Option String) :
    (∀ e, main fetchResp complete now = .error e →
      runScript fetchResp complete now w fs = (fs, some e)) ∧
    (∀ msg, main fetchResp complete now = .ok msg → w = .ok →
      runScript fetchResp complete now w fs = (some (pageContent msg), none)) ∧
    (∀ msg, main fetchResp complete now = .ok msg → w = .failOpen →
      runScript fetchResp complete now w fs = (fs, some Err.ioFailure)) ∧
    (∀ msg k, main fetchResp complete now = .ok msg → w = .failMid k →
      runScript fetchResp complete now w fs =
        (some (String.mk ((pageContent msg).data.take k)), some Err.ioFailure)) := by
  refine ⟨fun e he => ?_, fun msg hm hw => ?_, fun msg hm hw => ?_, fun msg k hm hw => ?_⟩
  · unfold runScript
    rw [he]
  · unfold runScript
    rw [hm, hw]
    rfl
  · unfold runScript
    rw [hm, hw]
    rfl
  · unfold runScript
    rw [hm, hw]
    rfl

/-- Witness for the amended C7: a concrete failing fetch aborts the run
with the previous file contents intact. -/
theorem pipeline_all_or_nothing_witness :
    runScript (.error .network) okComplete "ts" .ok (some "previous") =
      (some "previous", some Err.network) :=
  (pipeline_all_or_nothing (.error .network) okComplete "ts" .ok (some "previous")).1
    Err.network rfl

/-- Counterexample to claim C8 as stated: a non-2xx response whose body
parses as a JSON array does NOT surface as a fetch failure — the status
code is never checked, and an HTTP 404 with body `[]` yields an empty
CandleSeries. -/
theorem non_2xx_yields_series :
    get_coinbase_candles (.ok ⟨404, .ok (.arr [])⟩) = .ok [] := rfl

/-- Claim C8 (corrected): a network failure, a malformed or empty body,
and an object-shaped body (how the exchange reports errors) do raise;
but the HTTP status itself is never consulted, so a non-2xx response
whose body is a JSON array still yields a CandleSeries. -/
theorem fetch_error_surfacing :
    (∀ e, get_coinbase_candles (.error e) = .error e) ∧
    (∀ s e, get_coinbase_candles (.ok ⟨s, .error e⟩) = .error e) ∧
    (∀ s fields, get_coinbase_candles (.ok ⟨s, .ok (.obj fields)⟩) = .error Err.valueError) ∧
    (∀ s₁ s₂ body, get_coinbase_candles (.ok ⟨s₁, body⟩) =
      get_coinbase_candles (.ok ⟨s₂, body⟩)) :=
  ⟨fun _ => rfl, fun _ _ => rfl, fun _ _ => rfl, fun _ _ _ => rfl⟩

/-- Claim C9 (confirmed): `analyze_with_chatgpt` issues exactly one
chat-completion request, whose single user message carries the
serialized most recent 100 rows (all rows when fewer exist), and
returns the top completion text verbatim. -/
theorem summarizer_single_request_verbatim (df : List Row)
    (complete : ChatRequest → Except Err ChatCompletion)
    (comp : ChatCompletion) (choice : ChatChoice) (rest : List ChatChoice)
    (hc : complete (requestFor df) = .ok comp)
    (hch : comp.choices = choice :: rest) :
    (analyze_with_chatgpt df complete).2 = [requestFor df] ∧
    (analyze_with_chatgpt df complete).2.length = 1 ∧
    tail 100 df <:+ df ∧
    (tail 100 df).length = min 100 df.length ∧
    (df.length ≤ 100 → tail 100 df = df) ∧
    (analyze_with_chatgpt df complete).1 = .ok choice.message.content := by
  refine ⟨rfl, rfl, ?_, ?_, ?_, ?_⟩
  · show df.drop (df.length - 100) <:+ df
    exact List.drop_suffix _ _
  · show (df.drop (df.length - 100)).length = min 100 df.length
    rw [List.length_drop]
    omega
  · intro hle
    show df.drop (df.length - 100) = df
    have hz : df.length - 100 = 0 := by omega
    rw [hz, List.drop_zero]
  · have hfst : (analyze_with_chatgpt df complete).1 =
        (match complete (requestFor df) with
         | .error e => .error e
         | .ok completion =>
             match completion.choices.head? with
             | some c => .ok c.message.content
             | none => .error Err.emptyChoices) := rfl
    rw [hfst, hc]
    dsimp only
    rw [hch]
    rfl

/-- Witness for C9 at the empty series and a one-choice service. -/
theorem summarizer_single_request_verbatim_witness :
    (analyze_with_chatgpt [] okComplete).1 = Except.ok "ok" ∧
    (analyze_with_chatgpt [] okComplete).2.length = 1 :=
  ⟨(summarizer_single_request_verbatim [] okComplete ⟨[⟨⟨"ok"⟩⟩]⟩ ⟨⟨"ok"⟩⟩ [] rfl
      rfl).2.2.2.2.2,
   (summarizer_single_request_verbatim [] okComplete ⟨[⟨⟨"ok"⟩⟩]⟩ ⟨⟨"ok"⟩⟩ [] rfl rfl).2.1⟩

/-- Claim C10 (confirmed): the `add_indicators` of `src/main.py` and
the `add_indicators` of `src/src/resistance_support.py` are
extensionally equal — on every input they produce identical enriched
rows. -/
theorem add_indicators_impls_agree :
    ∀ df : List Candle, add_indicators df = ResistanceSupport.add_indicators df :=
  fun _ => rfl

end MyPage
